import Mathlib

/-!
Verification of the timestamp countdown application's orchestration core.

The development shallowly embeds the renderer lifecycle / resource-tracking
code of the repository: pure functions become Lean functions, stateful
components become explicit state passing, DOM and timer side effects are
recorded as explicit event lists, and code that can throw returns `Except`.
Components whose source is referenced only through callers and tests
(the resource-tracking module, the orchestrator, and the contribution-graph
renderer helper utilities) are modelled from the specification; every such
definition carries a doc comment saying so.
-/

namespace Timestamp

/-! ## Resource tracking (spec section 4.1)

The module `@core/resource-tracking` (`createResourceTracker`, `cancelAll`,
`safeSetTimeout`, `safeSetInterval`) is imported by `shadow-calculator.ts`
and `background-manager.ts` but its own source file is not present; it is
modelled here from the spec.  The model folds the tracker registry, the
native timer queue and the owning component's `destroyed` flag (see
`shadow-calculator.ts`: `destroy` sets `destroyed = true` and calls
`cancelAll(resources)`, and every tracked callback begins with
`if (destroyed) return`) into one scheduler state.  A callback "executes"
only through `fire`, which models the native timer coming due. -/

namespace ResourceTracking

/-- Combined state of one component instance, its resource tracker and the
native timer queue. `tracker` is the registry of cancellation entries,
`pending` the handles whose native timers are still armed, `fired` the
handles whose callbacks have actually run. -/
structure SchedulerState where
  tracker : List Nat
  pending : List Nat
  fired : List Nat
  nextHandle : Nat
  destroyed : Bool
deriving DecidableEq, Repr

/-- Modelled from the spec: `createResourceTracker()` returns an empty
registry; the component starts alive with no timers armed. -/
def initState : SchedulerState :=
  { tracker := [], pending := [], fired := [], nextHandle := 0, destroyed := false }

/-- Modelled from the spec: `schedule` (the `safeSetTimeout` /
`safeSetInterval` helpers) registers the native primitive and records a
cancellation entry, returning a fresh opaque handle. -/
def schedule (s : SchedulerState) : SchedulerState :=
  { s with tracker := s.nextHandle :: s.tracker,
           pending := s.nextHandle :: s.pending,
           nextHandle := s.nextHandle + 1 }

/-- Modelled from the spec: `cancelAll` invokes every recorded cancellation
function (removing the corresponding native timers from the queue) and
clears the registry. -/
def cancelAll (s : SchedulerState) : SchedulerState :=
  { s with pending := s.pending.filter (fun h => !(s.tracker.contains h)),
           tracker := [] }

/-- The native timer for handle `h` comes due.  The callback runs only if
the timer is still armed and, per the component-side guard in the source
(`shadow-calculator.ts` tracks `destroyed` and every tracked callback
starts with `if (destroyed) return`), only while the component is alive. -/
def fire (h : Nat) (s : SchedulerState) : SchedulerState :=
  if s.pending.contains h && !s.destroyed then { s with fired := h :: s.fired } else s

/-- The component's `destroy()` (embedded from `shadow-calculator.ts`,
`destroy`): set the `destroyed` flag, then cancel every tracked resource. -/
def destroy (s : SchedulerState) : SchedulerState :=
  cancelAll { s with destroyed := true }

/-- One operation a client or the platform can perform on the component. -/
inductive Op where
  | schedule
  | fire (h : Nat)
  | cancelAll
  | destroy
deriving DecidableEq, Repr

/-- Apply one operation. -/
def step (s : SchedulerState) : Op → SchedulerState
  | Op.schedule => schedule s
  | Op.fire h => fire h s
  | Op.cancelAll => cancelAll s
  | Op.destroy => destroy s

/-- Run a sequence of operations. -/
def run (s : SchedulerState) : List Op → SchedulerState
  | [] => s
  | op :: ops => run (step s op) ops

theorem destroyed_step_mono (s : SchedulerState) (op : Op) (h : s.destroyed = true) :
    (step s op).destroyed = true := by
  cases op <;> simp [step, schedule, fire, cancelAll, destroy, h]

theorem fired_step_of_destroyed (s : SchedulerState) (op : Op) (h : s.destroyed = true) :
    (step s op).fired = s.fired := by
  cases op <;> simp [step, schedule, fire, cancelAll, destroy, h]

theorem fired_run_of_destroyed (ops : List Op) (s : SchedulerState) (h : s.destroyed = true) :
    (run s ops).fired = s.fired := by
  induction ops generalizing s with
  | nil => rfl
  | cons op ops ih =>
      rw [run, ih (step s op) (destroyed_step_mono s op h),
        fired_step_of_destroyed s op h]

theorem destroy_destroyed (s : SchedulerState) : (destroy s).destroyed = true := by
  simp [destroy, cancelAll]

theorem cancelAll_of_tracker_nil (s : SchedulerState) (h : s.tracker = []) :
    cancelAll s = s := by
  cases s with
  | mk tracker pending fired nextHandle destroyed =>
      simp only at h
      subst h
      simp only [cancelAll, SchedulerState.mk.injEq, and_true, true_and]
      exact List.filter_eq_self.mpr (fun a _ => rfl)

/-- C1: a component's resource tracker holds zero entries immediately after
any `destroy()` (in particular the first) returns; no callback scheduled
through the tracker ever executes afterwards, whatever further operations
happen; and `cancelAll` is idempotent — calling it again (for instance via
a repeated `destroy()`) leaves the empty registry, and the whole state,
unchanged. -/
theorem destroy_clears_tracker_and_silences_callbacks (ops0 ops1 : List Op) :
    (destroy (run initState ops0)).tracker = [] ∧
    (run (destroy (run initState ops0)) ops1).fired
      = (destroy (run initState ops0)).fired ∧
    cancelAll (destroy (run initState ops0)) = destroy (run initState ops0) ∧
    destroy (destroy (run initState ops0)) = destroy (run initState ops0) := by
  have htr : (destroy (run initState ops0)).tracker = [] := by
    simp [destroy, cancelAll]
  refine ⟨htr, ?_, ?_, ?_⟩
  · exact fired_run_of_destroyed ops1 _ (destroy_destroyed _)
  · exact cancelAll_of_tracker_nil _ htr
  · have hd : (destroy (run initState ops0)).destroyed = true := destroy_destroyed _
    have hsame : { destroy (run initState ops0) with destroyed := true }
        = destroy (run initState ops0) := by
      cases h : destroy (run initState ops0) with
      | mk tracker pending fired nextHandle destroyed =>
          rw [h] at hd
          simp only at hd
          simp [hd]
    rw [destroy, hsame]
    exact cancelAll_of_tracker_nil _ htr

end ResourceTracking

/-! ## Solar shadow calculator (`src/core/solar/shadow.ts`)

`calculateShadowInfo` is embedded from its source.  JavaScript numbers are
modelled as rationals; the external collaborators — the platform's
`Math.PI` and `Math.tan` and the `suncalc` library's `getPosition` — are
opaque parameters bundled in `Platform`.  (Mathematically `Math.tan` is
strictly positive on the open interval from 0 to 90 degrees, which is why
the positivity conjunct below is phrased relative to `tan`.) -/

namespace Solar

/-- Sun position as returned by the external `SunCalc.getPosition` call;
angles are in radians. -/
structure SunPosition where
  altitude : ℚ
  azimuth : ℚ
deriving DecidableEq, Repr

/-- Input to `calculateShadowInfo` (`ShadowInput` in the source). The
optional `date` is the timestamp to evaluate at; `none` means "now". -/
structure ShadowInput where
  heightMeters : ℚ
  latitude : ℚ
  longitude : ℚ
  date : Option ℚ
deriving DecidableEq, Repr

/-- Output of `calculateShadowInfo` (`ShadowResult` in the source). -/
structure ShadowResult where
  altitudeDeg : ℚ
  azimuthDeg : ℚ
  shadowLengthMeters : Option ℚ
  isSunAboveHorizon : Bool
  timestamp : ℚ
deriving DecidableEq, Repr

/-- The external numeric environment: the double value of `Math.PI`, the
platform's `Math.tan`, and `suncalc`'s `getPosition(date, lat, lon)`. -/
structure Platform where
  piVal : ℚ
  tan : ℚ → ℚ
  getPosition : ℚ → ℚ → ℚ → SunPosition

/-- `VISIBLE_HORIZON_RAD = (-0.833 * Math.PI) / 180`. -/
def visibleHorizonRad (p : Platform) : ℚ := (-833/1000) * p.piVal / 180

/-- `MIN_HEIGHT_METERS = 0.01`. -/
def minHeightMeters : ℚ := 1/100

/-- `MIN_ALTITUDE_FOR_SHADOW_DEGREES = 0.5`. -/
def minAltitudeForShadowDegrees : ℚ := 1/2

/-- Embedding of `calculateShadowInfo`: throws when the height is below the
minimum, otherwise computes the sun position at the requested (or current)
timestamp and either reports a `none` shadow (sun at or below the visible
horizon, or altitude below the half-degree threshold) or the length
`heightMeters / tan(altitude)`. -/
def calculateShadowInfo (p : Platform) (now : ℚ) (input : ShadowInput) :
    Except String ShadowResult :=
  if input.heightMeters < minHeightMeters then
    Except.error "heightMeters must be at least 0.01 meters"
  else
    let timestamp := input.date.getD now
    let sunPos := p.getPosition timestamp input.latitude input.longitude
    let altitudeDeg := sunPos.altitude * (180 / p.piVal)
    let azimuthDeg := sunPos.azimuth * (180 / p.piVal)
    if ¬ (visibleHorizonRad p < sunPos.altitude)
        ∨ altitudeDeg < minAltitudeForShadowDegrees then
      Except.ok
        { altitudeDeg := altitudeDeg
          azimuthDeg := azimuthDeg
          shadowLengthMeters := none
          isSunAboveHorizon := decide (visibleHorizonRad p < sunPos.altitude)
          timestamp := timestamp }
    else
      Except.ok
        { altitudeDeg := altitudeDeg
          azimuthDeg := azimuthDeg
          shadowLengthMeters := some (input.heightMeters / p.tan sunPos.altitude)
          isSunAboveHorizon := decide (visibleHorizonRad p < sunPos.altitude)
          timestamp := timestamp }

/-- C9: `calculateShadowInfo` throws exactly when `heightMeters < 0.01`;
otherwise it returns a result whose timestamp is the provided date (the
current time when none was provided), whose shadow length is `none`
precisely when the sun is at or below the visible horizon or the altitude
in degrees is below 0.5, and which otherwise equals the height divided by
the tangent of the altitude — positive whenever that tangent is positive,
as it is for every altitude strictly between the thresholds and 90
degrees. -/
theorem calculateShadowInfo_spec (p : Platform) (now : ℚ) (input : ShadowInput) :
    (input.heightMeters < minHeightMeters →
      calculateShadowInfo p now input
        = Except.error "heightMeters must be at least 0.01 meters") ∧
    (¬ input.heightMeters < minHeightMeters →
      ∃ r, calculateShadowInfo p now input = Except.ok r ∧
        r.timestamp = input.date.getD now ∧
        (∀ d, input.date = some d → r.timestamp = d) ∧
        (r.shadowLengthMeters = none ↔
          ((p.getPosition (input.date.getD now) input.latitude
              input.longitude).altitude ≤ visibleHorizonRad p ∨
            (p.getPosition (input.date.getD now) input.latitude
              input.longitude).altitude * (180 / p.piVal)
              < minAltitudeForShadowDegrees)) ∧
        ((visibleHorizonRad p < (p.getPosition (input.date.getD now)
            input.latitude input.longitude).altitude ∧
          ¬ (p.getPosition (input.date.getD now) input.latitude
              input.longitude).altitude * (180 / p.piVal)
              < minAltitudeForShadowDegrees) →
          r.shadowLengthMeters
            = some (input.heightMeters
                / p.tan (p.getPosition (input.date.getD now) input.latitude
                    input.longitude).altitude) ∧
          (0 < p.tan (p.getPosition (input.date.getD now) input.latitude
              input.longitude).altitude →
            ∀ len, r.shadowLengthMeters = some len → 0 < len))) := by
  constructor
  · intro h
    simp [calculateShadowInfo, h]
  · intro h
    have hpos : 0 < input.heightMeters :=
      lt_of_lt_of_le (by norm_num [minHeightMeters]) (not_lt.mp h)
    by_cases hc : ¬ (visibleHorizonRad p
          < (p.getPosition (input.date.getD now) input.latitude
              input.longitude).altitude)
        ∨ (p.getPosition (input.date.getD now) input.latitude
            input.longitude).altitude * (180 / p.piVal)
            < minAltitudeForShadowDegrees
    · have heq : calculateShadowInfo p now input = Except.ok
          { altitudeDeg := (p.getPosition (input.date.getD now) input.latitude
              input.longitude).altitude * (180 / p.piVal)
            azimuthDeg := (p.getPosition (input.date.getD now) input.latitude
              input.longitude).azimuth * (180 / p.piVal)
            shadowLengthMeters := none
            isSunAboveHorizon := decide (visibleHorizonRad p
              < (p.getPosition (input.date.getD now) input.latitude
                  input.longitude).altitude)
            timestamp := input.date.getD now } := by
        simp only [calculateShadowInfo]
        rw [if_neg h, if_pos hc]
      refine ⟨_, heq, rfl, ?_, ?_, ?_⟩
      · intro d hd
        simp [hd]
      · simpa [not_lt] using hc
      · rintro ⟨h1, h2⟩
        exact absurd hc (by simp [h1, h2])
    · have heq : calculateShadowInfo p now input = Except.ok
          { altitudeDeg := (p.getPosition (input.date.getD now) input.latitude
              input.longitude).altitude * (180 / p.piVal)
            azimuthDeg := (p.getPosition (input.date.getD now) input.latitude
              input.longitude).azimuth * (180 / p.piVal)
            shadowLengthMeters := some (input.heightMeters
              / p.tan (p.getPosition (input.date.getD now) input.latitude
                  input.longitude).altitude)
            isSunAboveHorizon := decide (visibleHorizonRad p
              < (p.getPosition (input.date.getD now) input.latitude
                  input.longitude).altitude)
            timestamp := input.date.getD now } := by
        simp only [calculateShadowInfo]
        rw [if_neg h, if_neg hc]
      refine ⟨_, heq, rfl, ?_, ?_, ?_⟩
      · intro d hd
        simp [hd]
      · constructor
        · intro hnone
          exact absurd hnone (by simp)
        · intro hcond
          exact absurd (by simpa [not_lt] using hcond : _) hc
      · intro _
        refine ⟨rfl, ?_⟩
        intro htan len hlen
        have hlen2 : len = input.heightMeters
            / p.tan (p.getPosition (input.date.getD now) input.latitude
                input.longitude).altitude := by
          simpa using hlen.symm
        rw [hlen2]
        exact div_pos hpos htan

/-- Witness for C9: a concrete input with height 0 (below the 0.01 minimum)
makes `calculateShadowInfo` throw. -/
theorem calculateShadowInfo_spec_witness :
    calculateShadowInfo
        { piVal := 314159/100000, tan := fun _ => 1,
          getPosition := fun _ _ _ => { altitude := 1, azimuth := 2 } } 0
        { heightMeters := 0, latitude := 0, longitude := 0, date := none }
      = Except.error "heightMeters must be at least 0.01 meters" :=
  (calculateShadowInfo_spec _ 0 _).1 (by norm_num [minHeightMeters])

end Solar

/-! ## Contribution-graph time page renderer
(`src/themes/contribution-graph/renderers/time-page-renderer.ts`)

The renderer factory's method bodies are embedded from their source.  The
helper modules they delegate to (`utils/ui/state`, `utils/ui/animation`,
`utils/ui/text-rendering`, `utils/grid`, `@themes/shared`) are referenced
by the renderer but their files are not present; they are modelled from
the spec (sections 4.2 to 4.4) and from the guard/differential-update
patterns documented in the repository's
`.github/instructions/complex-theme-patterns.instructions.md`.  DOM and
timer side effects are recorded as an explicit `Effect` list, and methods
that dereference `state.gridState!` return `Except` so that a thrown
`TypeError` is observable. -/

namespace ContributionGraph

/-- Remaining time pushed into the renderer on each orchestrator tick. -/
structure TimeRemaining where
  days : Nat
  hours : Nat
  minutes : Nat
  seconds : Nat
deriving DecidableEq, Repr

/-- Sanitized completion message (`SafeMessage` in `@core/types`). -/
structure SafeMessage where
  forTextContent : String
  forInnerHTML : String
deriving DecidableEq, Repr

/-- `CelebrationOptions` passed to `onCelebrating` / `onCelebrated`. -/
structure CelebrationOptions where
  message : Option SafeMessage
  fullMessage : Option String
deriving DecidableEq, Repr

/-- Context delivered by `onAnimationStateChange`. -/
structure AnimationStateContext where
  shouldAnimate : Bool
  prefersReducedMotion : Bool
deriving DecidableEq, Repr

/-- Modelled from the spec: the grid module's per-surface state, including
the cached formatted string used for the idempotent-render skip. -/
structure GridState where
  cols : Nat
  lastTimeStr : Option String
  renderedLines : List String
deriving DecidableEq, Repr

/-- Observable side effects of renderer methods.  DOM mutations and timer
operations are both recorded; a method that "performs no DOM mutation"
emits the empty list. -/
inductive Effect where
  | renderDigitCells (lines : List String) (pulse : Bool)
  | startActivity
  | stopActivity
  | showMessage (msg : String)
  | clearCelebrationDom
  | resetGridDom
  | animatedCelebration (msg : String) (signal : Nat)
  | overlayCreated
  | overlayRemoved
  | detachDom
  | reparent (c : Nat)
deriving DecidableEq, Repr

/-- The `TimePageRendererState` record (modelled from the state interface
shown in `complex-theme-patterns.instructions.md` and spec section 3):
owned container, grid, shadow overlay, the current value of the
animation-enabled getter, ambient-activity bookkeeping, the last rendered
time, the completion message, and the celebration cancellation-signal
generation counter. -/
structure RendererState where
  container : Option Nat
  gridState : Option GridState
  shadowOverlay : Option Nat
  animationsEnabled : Bool
  activityRunning : Bool
  activityPhase : Nat
  lastTime : Option TimeRemaining
  completionMessage : String
  celebrationGen : Nat
deriving DecidableEq, Repr

/-- External pure collaborators of the renderer: `formatCountdown` from
`utils/grid` and the activity-phase policy of `updateActivityPhase`, whose
sources are not present. -/
structure RendererConfig where
  fmt : TimeRemaining → Nat → List String
  phaseOf : TimeRemaining → Nat

/-- Modelled from the spec: `createTimePageRendererState()` returns the
unmounted initial state. -/
def createTimePageRendererState : RendererState :=
  { container := none, gridState := none, shadowOverlay := none,
    animationsEnabled := false, activityRunning := false, activityPhase := 0,
    lastTime := none, completionMessage := "", celebrationGen := 0 }

/-- Readiness guard, as documented in
`complex-theme-patterns.instructions.md`: container and grid both present
(both are cleared on destroy, so this is "mounted and not destroyed"). -/
def isRendererReady (s : RendererState) : Bool :=
  s.container.isSome && s.gridState.isSome

/-- Modelled from the spec: `shouldEnableAnimations(getAnimationState)`
reads the combined page-visibility / reduced-motion predicate; the model
stores the getter's current value in the state. -/
def shouldEnableAnimations (s : RendererState) : Bool :=
  s.animationsEnabled

/-- `renderDigits`, modelled from the differential-update pattern in
`complex-theme-patterns.instructions.md`: skip all DOM work when the
joined cache key equals the cached one, else render and update the cache. -/
def renderDigits (g : GridState) (lines : List String) (pulse : Bool) :
    GridState × List Effect :=
  if g.lastTimeStr = some (String.intercalate "|" lines) then (g, [])
  else ({ g with lastTimeStr := some (String.intercalate "|" lines),
                 renderedLines := lines },
        [Effect.renderDigitCells lines pulse])

/-- Modelled from the spec (section 4.3): starting a new celebration
immediately invalidates any prior one; returns the fresh signal. -/
def prepareCelebration (s : RendererState) : RendererState × Nat :=
  ({ s with celebrationGen := s.celebrationGen + 1 }, s.celebrationGen + 1)

/-- Modelled from the spec (section 4.2 stop condition): cancel the
ambient activity loop timer. -/
def stopActivity (s : RendererState) : RendererState × List Effect :=
  ({ s with activityRunning := false }, [Effect.stopActivity])

/-- Modelled from the spec (section 4.2 start condition): start the
ambient loop; no-op when animations are disabled. -/
def startCountdownAmbient (s : RendererState) : RendererState × List Effect :=
  if shouldEnableAnimations s then
    ({ s with activityRunning := true }, [Effect.startActivity])
  else (s, [])

/-- Modelled from the spec (section 4.3): render the settled
completion-message end state. -/
def showCompletionMessageWithAmbient (s : RendererState) (msg : String) :
    RendererState × List Effect :=
  (s, [Effect.showMessage msg])

/-- Modelled from the spec (section 4.3): run the multi-phase animated
celebration sequence under the given cancellation signal. -/
def executeAnimatedCelebration (s : RendererState) (msg : String)
    (signal : Nat) : RendererState × List Effect :=
  ({ s with completionMessage := msg }, [Effect.animatedCelebration msg signal])

/-- Modelled from the spec: clear celebration visuals from the grid. -/
def clearCelebrationVisuals (g : GridState) : GridState × List Effect :=
  (g, [Effect.clearCelebrationDom])

/-- Modelled from the spec: restore the counting visual state. -/
def resetToCounting (g : GridState) : GridState × List Effect :=
  (g, [Effect.resetGridDom])

/-- Modelled from the spec (section 4.4 `onAnimationStateChange`): guarded;
record the new animation state and start or stop the activity loop
accordingly without restarting it from scratch. -/
def handleRendererAnimationStateChange (s : RendererState)
    (ctx : AnimationStateContext) : RendererState × List Effect :=
  if isRendererReady s = false then (s, [])
  else
    let s1 := { s with animationsEnabled := ctx.shouldAnimate }
    if ctx.shouldAnimate then
      if s1.activityRunning then (s1, [])
      else ({ s1 with activityRunning := true }, [Effect.startActivity])
    else
      if s1.activityRunning then
        ({ s1 with activityRunning := false }, [Effect.stopActivity])
      else (s1, [])

/-- Modelled from the spec (section 4.4 `mount`): attach the container,
build the grid, store the animation-enabled getter. -/
def setupRendererMount (s : RendererState) (target : Nat) (cols : Nat)
    (animEnabled : Bool) : RendererState :=
  { s with container := some target,
           gridState := some { cols := cols, lastTimeStr := none,
                               renderedLines := [] },
           animationsEnabled := animEnabled }

/-- Modelled from the spec (section 4.4 `destroy`): guarded; cancel all
scheduled work and the celebration signal, detach owned DOM, clear the
container and grid references. -/
def destroyRendererState (s : RendererState) : RendererState × List Effect :=
  if isRendererReady s = false then (s, [])
  else ({ s with container := none, gridState := none,
                 activityRunning := false,
                 celebrationGen := s.celebrationGen + 1 },
        [Effect.detachDom])

/-- Modelled from the spec (section 4.4 `updateContainer`): guarded;
re-parent to the new surface without destroying internal state. -/
def updateTimeRendererContainer (s : RendererState) (newC : Nat) :
    RendererState × List Effect :=
  if isRendererReady s = false then (s, [])
  else ({ s with container := some newC }, [Effect.reparent newC])

/-- The `options?.message?.forTextContent ?? options?.fullMessage ?? ''`
chain from `onCelebrating` / `onCelebrated`. -/
def celebrationMessage (opts : Option CelebrationOptions) : String :=
  match opts.bind (fun o => o.message) with
  | some m => m.forTextContent
  | none => (opts.bind (fun o => o.fullMessage)).getD ""

/-- `mount` from the source: set up state, start the countdown ambient
loop, create the shadow overlay. -/
def mount (s : RendererState) (target : Nat) (cols : Nat)
    (animEnabled : Bool) : RendererState × List Effect :=
  let s1 := setupRendererMount s target cols animEnabled
  let (s2, e1) := startCountdownAmbient s1
  ({ s2 with shadowOverlay := some target }, e1 ++ [Effect.overlayCreated])

/-- `updateTime` from the source: guard, record the time, update the
activity phase, format the countdown, render the digits (the `!` on
`state.gridState` is modelled as a possible thrown `TypeError`). -/
def updateTime (cfg : RendererConfig) (s : RendererState)
    (t : TimeRemaining) : Except String (RendererState × List Effect) :=
  if isRendererReady s = false then Except.ok (s, [])
  else
    match s.gridState with
    | none => Except.error "TypeError: gridState is null"
    | some g =>
      let s1 := { s with lastTime := some t, activityPhase := cfg.phaseOf t }
      let lines := cfg.fmt t g.cols
      let rd := renderDigits g lines (shouldEnableAnimations s1)
      Except.ok ({ s1 with gridState := some rd.1 }, rd.2)

/-- `onAnimationStateChange` from the source: delegate to the handler. -/
def onAnimationStateChange (s : RendererState) (ctx : AnimationStateContext) :
    Except String (RendererState × List Effect) :=
  Except.ok (handleRendererAnimationStateChange s ctx)

/-- `onCounting` from the source: guard, invalidate any celebration, stop
activity, reset the grid, restart the ambient loop. -/
def onCounting (s : RendererState) :
    Except String (RendererState × List Effect) :=
  if isRendererReady s = false then Except.ok (s, [])
  else
    let s1 := (prepareCelebration s).1
    let sa := stopActivity s1
    match sa.1.gridState with
    | none => Except.error "TypeError: gridState is null"
    | some g =>
      let rc := resetToCounting g
      let s3 := { sa.1 with gridState := some rc.1 }
      let sc := startCountdownAmbient s3
      Except.ok (sc.1, sa.2 ++ rc.2 ++ sc.2)

/-- `onCelebrating` from the source: guard, compute the message, prepare
the cancellation signal, then either run the animated sequence or (when
animations are disabled) stop activity and show the settled message. -/
def onCelebrating (s : RendererState) (opts : Option CelebrationOptions) :
    Except String (RendererState × List Effect) :=
  if isRendererReady s = false then Except.ok (s, [])
  else
    let message := celebrationMessage opts
    let pc := prepareCelebration s
    if shouldEnableAnimations pc.1 then
      Except.ok (executeAnimatedCelebration pc.1 message pc.2)
    else
      let sa := stopActivity pc.1
      let s3 := { sa.1 with completionMessage := message }
      let sm := showCompletionMessageWithAmbient s3 message
      Except.ok (sm.1, sa.2 ++ sm.2)

/-- `onCelebrated` from the source: guard, compute the message, prepare
the signal, stop activity, clear celebration visuals, store and show the
settled message. -/
def onCelebrated (s : RendererState) (opts : Option CelebrationOptions) :
    Except String (RendererState × List Effect) :=
  if isRendererReady s = false then Except.ok (s, [])
  else
    let message := celebrationMessage opts
    let s1 := (prepareCelebration s).1
    let sa := stopActivity s1
    match sa.1.gridState with
    | none => Except.error "TypeError: gridState is null"
    | some g =>
      let cc := clearCelebrationVisuals g
      let s3 := { sa.1 with gridState := some cc.1,
                            completionMessage := message }
      let sm := showCompletionMessageWithAmbient s3 message
      Except.ok (sm.1, sa.2 ++ cc.2 ++ sm.2)

/-- `destroy` from the source: destroy the shadow overlay if present, then
destroy the renderer state. -/
def destroy (s : RendererState) :
    Except String (RendererState × List Effect) :=
  let soEff : List Effect :=
    match s.shadowOverlay with
    | some _ => [Effect.overlayRemoved]
    | none => []
  let s1 := { s with shadowOverlay := none }
  let ds := destroyRendererState s1
  Except.ok (ds.1, soEff ++ ds.2)

/-- `updateContainer` from the source: delegate to the container update
helper. -/
def updateContainer (s : RendererState) (newC : Nat) :
    Except String (RendererState × List Effect) :=
  Except.ok (updateTimeRendererContainer s newC)

theorem shadowOverlay_none_eta (s : RendererState) (h : s.shadowOverlay = none) :
    { s with shadowOverlay := none } = s := by
  cases s
  simp_all

/-- C2: every lifecycle method other than `mount` — `updateTime`,
`onAnimationStateChange`, `onCounting`, `onCelebrating`, `onCelebrated`,
`destroy`, `updateContainer` — is a silent no-op when called before mount
or after destroy (readiness guard unmet, shadow overlay absent): it never
throws, leaves the state unchanged and performs no DOM mutation. -/
theorem lifecycle_guard_silent_when_unready (cfg : RendererConfig)
    (s : RendererState) (t : TimeRemaining) (ctx : AnimationStateContext)
    (opts : Option CelebrationOptions) (newC : Nat)
    (h1 : isRendererReady s = false) (h2 : s.shadowOverlay = none) :
    updateTime cfg s t = Except.ok (s, []) ∧
    onAnimationStateChange s ctx = Except.ok (s, []) ∧
    onCounting s = Except.ok (s, []) ∧
    onCelebrating s opts = Except.ok (s, []) ∧
    onCelebrated s opts = Except.ok (s, []) ∧
    destroy s = Except.ok (s, []) ∧
    updateContainer s newC = Except.ok (s, []) := by
  refine ⟨?_, ?_, ?_, ?_, ?_, ?_, ?_⟩
  · simp [updateTime, h1]
  · simp [onAnimationStateChange, handleRendererAnimationStateChange, h1]
  · simp [onCounting, h1]
  · simp [onCelebrating, h1]
  · simp [onCelebrated, h1]
  · rw [destroy]
    simp only [h2]
    rw [shadowOverlay_none_eta s h2]
    simp [destroyRendererState, h1]
  · simp [updateContainer, updateTimeRendererContainer, h1]

/-- Witness for C2: on the fresh unmounted renderer state, each of the
seven lifecycle methods returns without throwing, without changing the
state, and without emitting any effect. -/
theorem lifecycle_guard_silent_when_unready_witness :
    updateTime { fmt := fun _ _ => [], phaseOf := fun _ => 0 }
        createTimePageRendererState
        { days := 0, hours := 0, minutes := 0, seconds := 0 }
      = Except.ok (createTimePageRendererState, []) ∧
    onAnimationStateChange createTimePageRendererState
        { shouldAnimate := true, prefersReducedMotion := false }
      = Except.ok (createTimePageRendererState, []) ∧
    onCounting createTimePageRendererState
      = Except.ok (createTimePageRendererState, []) ∧
    onCelebrating createTimePageRendererState none
      = Except.ok (createTimePageRendererState, []) ∧
    onCelebrated createTimePageRendererState none
      = Except.ok (createTimePageRendererState, []) ∧
    destroy createTimePageRendererState
      = Except.ok (createTimePageRendererState, []) ∧
    updateContainer createTimePageRendererState 7
      = Except.ok (createTimePageRendererState, []) :=
  lifecycle_guard_silent_when_unready _ createTimePageRendererState _ _ none 7
    rfl rfl

/-- C7: on a mounted renderer with animations disabled (reduced motion or
hidden page), `onCelebrating` bypasses the animated sequence entirely: it
stops ambient activity and directly renders the settled completion-message
state with the configured message — and the emitted effects contain no
animated-celebration step. -/
theorem onCelebrating_disabled_shows_settled_message (s : RendererState)
    (opts : Option CelebrationOptions)
    (hready : isRendererReady s = true)
    (hanim : s.animationsEnabled = false) :
    onCelebrating s opts = Except.ok
      ({ s with celebrationGen := s.celebrationGen + 1,
                activityRunning := false,
                completionMessage := celebrationMessage opts },
       [Effect.stopActivity,
        Effect.showMessage (celebrationMessage opts)]) ∧
    (∀ m sig, Effect.animatedCelebration m sig
        ∉ [Effect.stopActivity,
           Effect.showMessage (celebrationMessage opts)]) := by
  constructor
  · simp [onCelebrating, hready, prepareCelebration, shouldEnableAnimations,
      hanim, stopActivity, showCompletionMessageWithAmbient]
  · intro m sig
    simp

/-- Witness for C7: a concrete mounted state with animations disabled
settles directly into the completion message "DONE!". -/
theorem onCelebrating_disabled_shows_settled_message_witness :
    onCelebrating
        { container := some 0,
          gridState := some { cols := 5, lastTimeStr := none,
                              renderedLines := [] },
          shadowOverlay := some 0, animationsEnabled := false,
          activityRunning := true, activityPhase := 0, lastTime := none,
          completionMessage := "", celebrationGen := 0 }
        (some { message := some { forTextContent := "DONE!",
                                  forInnerHTML := "DONE!" },
                fullMessage := some "DONE!" })
      = Except.ok
          ({ container := some 0,
             gridState := some { cols := 5, lastTimeStr := none,
                                 renderedLines := [] },
             shadowOverlay := some 0, animationsEnabled := false,
             activityRunning := false, activityPhase := 0, lastTime := none,
             completionMessage := "DONE!", celebrationGen := 1 },
           [Effect.stopActivity, Effect.showMessage "DONE!"]) :=
  (onCelebrating_disabled_shows_settled_message
    { container := some 0,
      gridState := some { cols := 5, lastTimeStr := none,
                          renderedLines := [] },
      shadowOverlay := some 0, animationsEnabled := false,
      activityRunning := true, activityPhase := 0, lastTime := none,
      completionMessage := "", celebrationGen := 0 }
    (some { message := some { forTextContent := "DONE!",
                              forInnerHTML := "DONE!" },
            fullMessage := some "DONE!" })
    rfl rfl).1

theorem renderDigits_skip (g : GridState) (lines : List String) (pulse : Bool)
    (h : g.lastTimeStr = some (String.intercalate "|" lines)) :
    renderDigits g lines pulse = (g, []) := by
  simp [renderDigits, h]

theorem renderDigits_fst_lastTimeStr (g : GridState) (lines : List String)
    (pulse : Bool) :
    (renderDigits g lines pulse).1.lastTimeStr
      = some (String.intercalate "|" lines) := by
  by_cases h : g.lastTimeStr = some (String.intercalate "|" lines) <;>
    simp [renderDigits, h]

theorem renderDigits_fst_cols (g : GridState) (lines : List String)
    (pulse : Bool) : (renderDigits g lines pulse).1.cols = g.cols := by
  by_cases h : g.lastTimeStr = some (String.intercalate "|" lines) <;>
    simp [renderDigits, h]

theorem updateTime_eq_of_ready (cfg : RendererConfig) (s : RendererState)
    (t : TimeRemaining) (g : GridState)
    (hc : s.container.isSome = true) (hg : s.gridState = some g) :
    updateTime cfg s t = Except.ok
      ({ s with lastTime := some t, activityPhase := cfg.phaseOf t,
                gridState := some (renderDigits g (cfg.fmt t g.cols)
                  s.animationsEnabled).1 },
       (renderDigits g (cfg.fmt t g.cols) s.animationsEnabled).2) := by
  have hready : isRendererReady s = true := by
    simp [isRendererReady, hc, hg]
  simp [updateTime, hready, hg, shouldEnableAnimations]

/-- C8: on a mounted renderer, when two consecutive `updateTime` calls
format the remaining time to the same countdown lines, the second call
performs no redraw work at all — it emits no effects, changes only the
time/phase bookkeeping fields, and never throws. -/
theorem updateTime_skips_redundant_redraw (cfg : RendererConfig)
    (s s1 : RendererState) (t1 t2 : TimeRemaining) (g : GridState)
    (ops1 : List ContributionGraph.Effect)
    (hg : s.gridState = some g)
    (hready : isRendererReady s = true)
    (hfmt : cfg.fmt t1 g.cols = cfg.fmt t2 g.cols)
    (h1 : updateTime cfg s t1 = Except.ok (s1, ops1)) :
    updateTime cfg s1 t2 = Except.ok
      ({ s1 with lastTime := some t2, activityPhase := cfg.phaseOf t2 }, []) := by
  have hc : s.container.isSome = true := by
    have h := hready
    simp only [isRendererReady, Bool.and_eq_true] at h
    exact h.1
  rw [updateTime_eq_of_ready cfg s t1 g hc hg] at h1
  simp only [Except.ok.injEq, Prod.mk.injEq] at h1
  obtain ⟨hs1, hops1⟩ := h1
  have hc1 : s1.container.isSome = true := by
    rw [← hs1]
    exact hc
  have hg1 : s1.gridState
      = some (renderDigits g (cfg.fmt t1 g.cols) s.animationsEnabled).1 := by
    rw [← hs1]
  rw [updateTime_eq_of_ready cfg s1 t2
    (renderDigits g (cfg.fmt t1 g.cols) s.animationsEnabled).1 hc1 hg1]
  rw [renderDigits_skip _ _ _
    (by rw [renderDigits_fst_cols, ← hfmt, renderDigits_fst_lastTimeStr])]
  obtain ⟨c, gs, so, ae, ar, ap, lt, cm, cg⟩ := s1
  simp only at hg1
  rw [hg1]

/-- Witness for C8: with a concrete formatter and a concrete mounted state,
repeating the same remaining time makes the second `updateTime` call emit
no effects. -/
theorem updateTime_skips_redundant_redraw_witness :
    updateTime { fmt := fun t _ => [toString t.seconds], phaseOf := fun _ => 0 }
        { container := some 0,
          gridState := some { cols := 3, lastTimeStr := some "5",
                              renderedLines := ["5"] },
          shadowOverlay := some 0, animationsEnabled := true,
          activityRunning := true, activityPhase := 0,
          lastTime := some { days := 0, hours := 0, minutes := 0, seconds := 5 },
          completionMessage := "", celebrationGen := 0 }
        { days := 0, hours := 0, minutes := 0, seconds := 5 }
      = Except.ok
          ({ container := some 0,
             gridState := some { cols := 3, lastTimeStr := some "5",
                                 renderedLines := ["5"] },
             shadowOverlay := some 0, animationsEnabled := true,
             activityRunning := true, activityPhase := 0,
             lastTime := some { days := 0, hours := 0, minutes := 0,
                                seconds := 5 },
             completionMessage := "", celebrationGen := 0 }, []) :=
  updateTime_skips_redundant_redraw
    { fmt := fun t _ => [toString t.seconds], phaseOf := fun _ => 0 }
    { container := some 0,
      gridState := some { cols := 3, lastTimeStr := none,
                          renderedLines := [] },
      shadowOverlay := some 0, animationsEnabled := true,
      activityRunning := true, activityPhase := 0, lastTime := none,
      completionMessage := "", celebrationGen := 0 }
    _
    { days := 0, hours := 0, minutes := 0, seconds := 5 }
    { days := 0, hours := 0, minutes := 0, seconds := 5 }
    { cols := 3, lastTimeStr := none, renderedLines := [] }
    [Effect.renderDigitCells ["5"] true]
    rfl rfl rfl (by rfl)

end ContributionGraph

/-! ## Orchestrator (spec sections 4.5, 2 and 8)

The orchestrator module itself (`createOrchestrator` in
`app/orchestrator`) is referenced only through its integration tests
(`orchestrator.test.ts`); its source file is not present, so the
per-timezone celebration lifecycle, timezone validation and theme-switch
protocol are modelled from the spec.  The remaining time computed for the
currently selected timezone is supplied as an oracle argument on each
tick or timezone selection, and spec-guaranteed serialization of
`switchTheme` is modelled by sequential composition of switch calls.
Renderer instances are identified by numeric ids so that instance
identity is observable. -/

namespace Orchestrator

/-- Lifecycle phase of the page (spec section 3). -/
inductive Phase where
  | counting
  | celebrating
  | celebrated
deriving DecidableEq, Repr

/-- Modelled from the spec: orchestrator state — selected timezone, the
set of already-celebrated timezones, the lifecycle phase, the active
theme, and the identity of the active renderer instance. -/
structure OrchState where
  currentTimezone : String
  celebratedTimezones : List String
  phase : Phase
  currentTheme : String
  activeRenderer : Option Nat
  destroyedRenderers : List Nat
  nextRendererId : Nat
deriving DecidableEq, Repr

/-- Observable calls the orchestrator makes into the renderer layer. -/
inductive Event where
  | celebrating (tz : String)
  | celebrated (tz : String)
  | destroyRenderer (id : Nat)
  | mountRenderer (id : Nat) (theme : String)
deriving DecidableEq, Repr

/-- Modelled from the spec (section 4.5, transition detection): one tick
with the freshly resolved remaining time for the current timezone.  While
counting, a non-positive remainder fires `onCelebrating` exactly once and
records the timezone — unless the timezone has already celebrated, in
which case the settled `onCelebrated` state is shown instead. -/
def tick (rem : Int) (s : OrchState) : OrchState × List Event :=
  if rem ≤ 0 then
    match s.phase with
    | Phase.counting =>
      if s.currentTimezone ∈ s.celebratedTimezones then
        ({ s with phase := Phase.celebrated },
         [Event.celebrated s.currentTimezone])
      else
        ({ s with phase := Phase.celebrating,
                  celebratedTimezones :=
                    s.currentTimezone :: s.celebratedTimezones },
         [Event.celebrating s.currentTimezone])
    | _ => (s, [])
  else
    ({ s with phase := Phase.counting }, [])

/-- Modelled from the spec (section 4.5 `setTimezone`): validate against
the platform's identifiers, throwing a `RangeError` for unrecognized ones
before touching any state; on success select the timezone and replay
`onCelebrated` when it already celebrated (or its wall-clock target is
already past), else resume counting. -/
def setTimezone (valid : List String) (tz : String) (rem : Int)
    (s : OrchState) : Except String (OrchState × List Event) :=
  if tz ∈ valid then
    let s1 := { s with currentTimezone := tz }
    if tz ∈ s1.celebratedTimezones then
      Except.ok ({ s1 with phase := Phase.celebrated }, [Event.celebrated tz])
    else if rem ≤ 0 then
      Except.ok ({ s1 with phase := Phase.celebrated,
                           celebratedTimezones := tz :: s1.celebratedTimezones },
                 [Event.celebrated tz])
    else
      Except.ok ({ s1 with phase := Phase.counting }, [])
  else
    Except.error "RangeError: invalid time zone"

/-- Modelled from the spec (section 4.5 theme-switch protocol): a switch
to the already-active theme is a no-op; otherwise the old renderer is
fully destroyed before the fresh instance mounts. -/
def switchTheme (theme : String) (s : OrchState) : OrchState × List Event :=
  if s.currentTheme = theme then (s, [])
  else
    match s.activeRenderer with
    | some old =>
      ({ s with activeRenderer := some s.nextRendererId,
                nextRendererId := s.nextRendererId + 1,
                currentTheme := theme,
                destroyedRenderers := old :: s.destroyedRenderers },
       [Event.destroyRenderer old,
        Event.mountRenderer s.nextRendererId theme])
    | none =>
      ({ s with activeRenderer := some s.nextRendererId,
                nextRendererId := s.nextRendererId + 1,
                currentTheme := theme },
       [Event.mountRenderer s.nextRendererId theme])

/-- Modelled from the spec: initial mount — mount the renderer for the
initial theme and, when the wall-clock target is already past for the
initial timezone, render the settled `onCelebrated` state (never the
animated `onCelebrating`). -/
def init (tz0 theme : String) (rem0 : Int) : OrchState × List Event :=
  let base : OrchState :=
    { currentTimezone := tz0, celebratedTimezones := [],
      phase := Phase.counting, currentTheme := theme,
      activeRenderer := some 0, destroyedRenderers := [],
      nextRendererId := 1 }
  if rem0 ≤ 0 then
    ({ base with phase := Phase.celebrated, celebratedTimezones := [tz0] },
     [Event.mountRenderer 0 theme, Event.celebrated tz0])
  else (base, [Event.mountRenderer 0 theme])

/-- A client-visible orchestrator operation, with the oracle-supplied
remaining time where one is consulted. -/
inductive Cmd where
  | tick (rem : Int)
  | selectTimezone (tz : String) (rem : Int)
  | switchTheme (theme : String)
deriving Repr

/-- Apply one operation; a rejected `setTimezone` leaves the state
untouched (the thrown error propagates to the caller). -/
def stepCmd (valid : List String) (s : OrchState) : Cmd → OrchState × List Event
  | Cmd.tick rem => tick rem s
  | Cmd.selectTimezone tz rem =>
      match setTimezone valid tz rem s with
      | Except.ok r => r
      | Except.error _ => (s, [])
  | Cmd.switchTheme theme => switchTheme theme s

/-- Run a sequence of operations, accumulating the emitted events. -/
def run (valid : List String) (s : OrchState) :
    List Cmd → OrchState × List Event
  | [] => (s, [])
  | c :: cs =>
      let r1 := stepCmd valid s c
      let r2 := run valid r1.1 cs
      (r2.1, r1.2 ++ r2.2)

/-- Number of `onCelebrating` calls issued for timezone `Z`. -/
def countCelebrating (Z : String) (evs : List Event) : Nat :=
  evs.countP (fun e => match e with
    | Event.celebrating tz => tz == Z
    | _ => false)

/-- Number of renderer mounts for theme `theme`. -/
def countMountsOf (theme : String) (evs : List Event) : Nat :=
  evs.countP (fun e => match e with
    | Event.mountRenderer _ th => th == theme
    | _ => false)

theorem countCelebrating_append (Z : String) (a b : List Event) :
    countCelebrating Z (a ++ b)
      = countCelebrating Z a + countCelebrating Z b := by
  simp [countCelebrating, List.countP_append]

theorem mem_celebrated_step (valid : List String) (s : OrchState) (c : Cmd)
    (Z : String) (h : Z ∈ s.celebratedTimezones) :
    Z ∈ (stepCmd valid s c).1.celebratedTimezones := by
  cases c with
  | tick rem =>
      by_cases hr : rem ≤ 0
      · cases hp : s.phase with
        | counting =>
            by_cases hm : s.currentTimezone ∈ s.celebratedTimezones
            · simp [stepCmd, tick, hr, hp, hm, h]
            · simp only [stepCmd, tick, if_pos hr, hp, if_neg hm]
              exact List.mem_cons_of_mem _ h
        | celebrating => simp [stepCmd, tick, hr, hp, h]
        | celebrated => simp [stepCmd, tick, hr, hp, h]
      · simp [stepCmd, tick, hr, h]
  | selectTimezone tz rem =>
      by_cases hv : tz ∈ valid
      · by_cases h1 : tz ∈ s.celebratedTimezones
        · simp [stepCmd, setTimezone, hv, h1, h]
        · by_cases h2 : rem ≤ 0
          · simp only [stepCmd, setTimezone, if_pos hv, if_neg h1, if_pos h2]
            exact List.mem_cons_of_mem _ h
          · simp [stepCmd, setTimezone, hv, h1, h2, h]
      · simp [stepCmd, setTimezone, hv, h]
  | switchTheme theme =>
      by_cases ht : s.currentTheme = theme
      · simp [stepCmd, switchTheme, ht, h]
      · cases ho : s.activeRenderer <;>
          simp [stepCmd, switchTheme, ht, ho, h]

theorem step_celebrating_count (valid : List String) (s : OrchState)
    (c : Cmd) (Z : String) :
    countCelebrating Z (stepCmd valid s c).2 = 0 ∨
    (Z ∉ s.celebratedTimezones ∧
     Z ∈ (stepCmd valid s c).1.celebratedTimezones ∧
     countCelebrating Z (stepCmd valid s c).2 = 1) := by
  cases c with
  | tick rem =>
      by_cases hr : rem ≤ 0
      · cases hp : s.phase with
        | counting =>
            by_cases hm : s.currentTimezone ∈ s.celebratedTimezones
            · left
              simp [stepCmd, tick, hr, hp, hm, countCelebrating]
            · by_cases hz : s.currentTimezone = Z
              · right
                subst hz
                refine ⟨hm, ?_, ?_⟩
                · simp only [stepCmd, tick, if_pos hr, hp, if_neg hm]
                  exact List.mem_cons_self _ _
                · simp [stepCmd, tick, hr, hp, hm, countCelebrating]
              · left
                simp [stepCmd, tick, hr, hp, hm, countCelebrating, hz]
        | celebrating =>
            left
            simp [stepCmd, tick, hr, hp, countCelebrating]
        | celebrated =>
            left
            simp [stepCmd, tick, hr, hp, countCelebrating]
      · left
        simp [stepCmd, tick, hr, countCelebrating]
  | selectTimezone tz rem =>
      left
      by_cases hv : tz ∈ valid
      · by_cases h1 : tz ∈ s.celebratedTimezones
        · simp [stepCmd, setTimezone, hv, h1, countCelebrating]
        · by_cases h2 : rem ≤ 0 <;>
            simp [stepCmd, setTimezone, hv, h1, h2, countCelebrating]
      · simp [stepCmd, setTimezone, hv, countCelebrating]
  | switchTheme theme =>
      left
      by_cases ht : s.currentTheme = theme
      · simp [stepCmd, switchTheme, ht, countCelebrating]
      · cases ho : s.activeRenderer <;>
          simp [stepCmd, switchTheme, ht, ho, countCelebrating]

theorem run_countCelebrating_zero_of_mem (valid : List String) (Z : String)
    (cmds : List Cmd) (s : OrchState) (h : Z ∈ s.celebratedTimezones) :
    countCelebrating Z (run valid s cmds).2 = 0 := by
  induction cmds generalizing s with
  | nil => rfl
  | cons c cs ih =>
      rcases step_celebrating_count valid s c Z with h0 | ⟨hnot, _, _⟩
      · simp only [run]
        rw [countCelebrating_append, h0,
          ih _ (mem_celebrated_step valid s c Z h)]
      · exact absurd h hnot

theorem run_countCelebrating_le_one (valid : List String) (Z : String)
    (cmds : List Cmd) (s : OrchState) :
    countCelebrating Z (run valid s cmds).2 ≤ 1 := by
  induction cmds generalizing s with
  | nil => simp [run, countCelebrating]
  | cons c cs ih =>
      simp only [run]
      rw [countCelebrating_append]
      rcases step_celebrating_count valid s c Z with h0 | ⟨_, hmem, h1⟩
      · rw [h0]
        simpa using ih (stepCmd valid s c).1
      · rw [h1, run_countCelebrating_zero_of_mem valid Z cs _ hmem]

theorem init_countCelebrating_zero (tz0 theme : String) (rem0 : Int)
    (Z : String) : countCelebrating Z (init tz0 theme rem0).2 = 0 := by
  by_cases h : rem0 ≤ 0 <;> simp [init, h, countCelebrating]

/-- C3: along every trace of ticks, timezone selections and theme
switches from any initial mount, at most one `onCelebrating` is ever
issued for a timezone `Z`; a tick that crosses to non-positive remaining
time while counting in a not-yet-celebrated timezone `Z` emits exactly one
`onCelebrating` for `Z` and records `Z` as celebrated; selecting a
timezone already in `celebratedTimezones` replays `onCelebrated` (never
`onCelebrating`); and an initial mount whose target is already past emits
`onCelebrated` for the initial timezone. -/
theorem celebration_lifecycle_once_per_timezone (valid : List String)
    (tz0 theme : String) (rem0 : Int) (cmds : List Cmd) (Z : String) :
    countCelebrating Z ((init tz0 theme rem0).2
        ++ (run valid (init tz0 theme rem0).1 cmds).2) ≤ 1 ∧
    (∀ s rem, s.phase = Phase.counting → s.currentTimezone = Z →
      Z ∉ s.celebratedTimezones → rem ≤ 0 →
      (tick rem s).2 = [Event.celebrating Z] ∧
      Z ∈ (tick rem s).1.celebratedTimezones) ∧
    (∀ s rem, Z ∈ s.celebratedTimezones → Z ∈ valid →
      setTimezone valid Z rem s
        = Except.ok ({ s with currentTimezone := Z,
                              phase := Phase.celebrated },
            [Event.celebrated Z])) ∧
    (rem0 ≤ 0 →
      (init tz0 theme rem0).2
        = [Event.mountRenderer 0 theme, Event.celebrated tz0]) := by
  refine ⟨?_, ?_, ?_, ?_⟩
  · rw [countCelebrating_append, init_countCelebrating_zero]
    simpa using run_countCelebrating_le_one valid Z cmds _
  · intro s rem hp hz hnm hr
    subst hz
    constructor
    · simp [tick, hr, hp, hnm]
    · simp only [tick, if_pos hr, hp, if_neg hnm]
      exact List.mem_cons_self _ _
  · intro s rem hm hv
    simp [setTimezone, hv, hm]
  · intro h0
    simp [init, h0]

/-- Witness for C3: on a concrete wall-clock trace — counting in UTC, a
crossing tick, a switch to a not-yet-reached timezone and a switch back —
at most one `onCelebrating` is emitted for UTC; the crossing tick emits
exactly one `onCelebrating`; re-selecting celebrated UTC yields
`onCelebrated`; and a mount with a past target emits `onCelebrated`. -/
theorem celebration_lifecycle_once_per_timezone_witness :
    countCelebrating "UTC"
        ((init "UTC" "contribution-graph" 5).2
          ++ (run ["UTC", "America/New_York"]
              (init "UTC" "contribution-graph" 5).1
              [Cmd.tick 0, Cmd.selectTimezone "America/New_York" 3,
               Cmd.selectTimezone "UTC" 0]).2) ≤ 1 ∧
    (tick 0
        { currentTimezone := "UTC", celebratedTimezones := [],
          phase := Phase.counting, currentTheme := "contribution-graph",
          activeRenderer := some 0, destroyedRenderers := [],
          nextRendererId := 1 }).2 = [Event.celebrating "UTC"] ∧
    setTimezone ["UTC", "America/New_York"] "UTC" 0
        { currentTimezone := "America/New_York",
          celebratedTimezones := ["UTC"], phase := Phase.counting,
          currentTheme := "contribution-graph", activeRenderer := some 0,
          destroyedRenderers := [], nextRendererId := 1 }
      = Except.ok
          ({ currentTimezone := "UTC", celebratedTimezones := ["UTC"],
             phase := Phase.celebrated,
             currentTheme := "contribution-graph", activeRenderer := some 0,
             destroyedRenderers := [], nextRendererId := 1 },
           [Event.celebrated "UTC"]) ∧
    (init "UTC" "contribution-graph" 0).2
      = [Event.mountRenderer 0 "contribution-graph",
         Event.celebrated "UTC"] :=
  have h := celebration_lifecycle_once_per_timezone
    ["UTC", "America/New_York"] "UTC" "contribution-graph" 5
    [Cmd.tick 0, Cmd.selectTimezone "America/New_York" 3,
     Cmd.selectTimezone "UTC" 0] "UTC"
  have h0 := celebration_lifecycle_once_per_timezone
    ["UTC", "America/New_York"] "UTC" "contribution-graph" 0 [] "UTC"
  ⟨h.1,
   (h.2.1
     { currentTimezone := "UTC", celebratedTimezones := [],
       phase := Phase.counting, currentTheme := "contribution-graph",
       activeRenderer := some 0, destroyedRenderers := [],
       nextRendererId := 1 } 0 rfl rfl (by decide) (by decide)).1,
   h.2.2.1
     { currentTimezone := "America/New_York",
       celebratedTimezones := ["UTC"], phase := Phase.counting,
       currentTheme := "contribution-graph", activeRenderer := some 0,
       destroyedRenderers := [], nextRendererId := 1 } 0
     (by decide) (by decide),
   h0.2.2.2 (by decide)⟩

/-- C4: `setTimezone` throws a range error synchronously for every string
that is not a recognized platform timezone identifier — touching no state,
so the caller's `currentTimezone` is unchanged — and it returns
successfully only for recognized identifiers, in which case the selected
timezone becomes exactly the requested one. -/
theorem setTimezone_validates (valid : List String) (tz : String)
    (rem : Int) (s : OrchState) :
    (tz ∉ valid →
      setTimezone valid tz rem s
        = Except.error "RangeError: invalid time zone") ∧
    (∀ s1 ev, setTimezone valid tz rem s = Except.ok (s1, ev) →
      tz ∈ valid ∧ s1.currentTimezone = tz) ∧
    (tz ∈ valid → ∃ s1 ev,
      setTimezone valid tz rem s = Except.ok (s1, ev) ∧
      s1.currentTimezone = tz) := by
  refine ⟨?_, ?_, ?_⟩
  · intro h
    simp [setTimezone, h]
  · intro s1 ev hok
    by_cases hv : tz ∈ valid
    · refine ⟨hv, ?_⟩
      simp only [setTimezone, if_pos hv] at hok
      by_cases h1 : tz ∈ s.celebratedTimezones
      · simp only [if_pos h1, Except.ok.injEq, Prod.mk.injEq] at hok
        rw [← hok.1]
      · simp only [if_neg h1] at hok
        by_cases h2 : rem ≤ 0
        · simp only [if_pos h2, Except.ok.injEq, Prod.mk.injEq] at hok
          rw [← hok.1]
        · simp only [if_neg h2, Except.ok.injEq, Prod.mk.injEq] at hok
          rw [← hok.1]
    · exact absurd hok (by simp [setTimezone, hv])
  · intro hv
    by_cases h1 : tz ∈ s.celebratedTimezones
    · refine ⟨{ s with currentTimezone := tz, phase := Phase.celebrated },
        [Event.celebrated tz], ?_, rfl⟩
      simp [setTimezone, hv, h1]
    · by_cases h2 : rem ≤ 0
      · refine ⟨{ s with currentTimezone := tz,
                         phase := Phase.celebrated,
                         celebratedTimezones := tz :: s.celebratedTimezones },
          [Event.celebrated tz], ?_, rfl⟩
        simp [setTimezone, hv, h1, h2]
      · refine ⟨{ s with currentTimezone := tz, phase := Phase.counting },
          [], ?_, rfl⟩
        simp [setTimezone, hv, h1, h2]

/-- Witness for C4: `setTimezone` rejects `Invalid/Timezone` against a
concrete platform list and accepts `America/New_York`, which then becomes
the selected timezone. -/
theorem setTimezone_validates_witness :
    setTimezone ["UTC", "America/New_York"] "Invalid/Timezone" 5
        { currentTimezone := "UTC", celebratedTimezones := [],
          phase := Phase.counting, currentTheme := "contribution-graph",
          activeRenderer := some 0, destroyedRenderers := [],
          nextRendererId := 1 }
      = Except.error "RangeError: invalid time zone" ∧
    ("America/New_York" ∈ ["UTC", "America/New_York"] ∧
      (OrchState.currentTimezone
        { currentTimezone := "America/New_York", celebratedTimezones := [],
          phase := Phase.counting, currentTheme := "contribution-graph",
          activeRenderer := some 0, destroyedRenderers := [],
          nextRendererId := 1 }) = "America/New_York") :=
  ⟨(setTimezone_validates ["UTC", "America/New_York"] "Invalid/Timezone" 5
      { currentTimezone := "UTC", celebratedTimezones := [],
        phase := Phase.counting, currentTheme := "contribution-graph",
        activeRenderer := some 0, destroyedRenderers := [],
        nextRendererId := 1 }).1 (by decide),
   (setTimezone_validates ["UTC", "America/New_York"]
      "America/New_York" 5
      { currentTimezone := "UTC", celebratedTimezones := [],
        phase := Phase.counting, currentTheme := "contribution-graph",
        activeRenderer := some 0, destroyedRenderers := [],
        nextRendererId := 1 }).2.1
      { currentTimezone := "America/New_York", celebratedTimezones := [],
        phase := Phase.counting, currentTheme := "contribution-graph",
        activeRenderer := some 0, destroyedRenderers := [],
        nextRendererId := 1 }
      [] (by rfl)⟩

/-- C5: switching to the currently active theme id is a no-op — the state
(including the active renderer instance identity and the lifecycle phase)
is returned unchanged, no renderer is destroyed or mounted, and the
current theme remains the same id. -/
theorem switchTheme_same_id_noop (id : String) (s : OrchState)
    (h : s.currentTheme = id) :
    switchTheme id s = (s, []) ∧
    (switchTheme id s).1.activeRenderer = s.activeRenderer ∧
    (switchTheme id s).1.phase = s.phase ∧
    (switchTheme id s).1.currentTheme = id := by
  refine ⟨by simp [switchTheme, h], ?_, ?_, ?_⟩ <;> simp [switchTheme, h]

/-- Witness for C5: a concrete orchestrator state on theme
`contribution-graph` is untouched by `switchTheme "contribution-graph"`. -/
theorem switchTheme_same_id_noop_witness :
    switchTheme "contribution-graph"
        { currentTimezone := "UTC", celebratedTimezones := [],
          phase := Phase.counting, currentTheme := "contribution-graph",
          activeRenderer := some 4, destroyedRenderers := [],
          nextRendererId := 5 }
      = ({ currentTimezone := "UTC", celebratedTimezones := [],
           phase := Phase.counting, currentTheme := "contribution-graph",
           activeRenderer := some 4, destroyedRenderers := [],
           nextRendererId := 5 }, []) :=
  (switchTheme_same_id_noop "contribution-graph"
    { currentTimezone := "UTC", celebratedTimezones := [],
      phase := Phase.counting, currentTheme := "contribution-graph",
      activeRenderer := some 4, destroyedRenderers := [],
      nextRendererId := 5 } rfl).1

/-- C6: switching away from an active renderer destroys the old instance
strictly before the new one mounts (the event list is literally destroy
then mount); the serialized second `switchTheme` to the same target is a
no-op, so after two overlapping calls exactly one renderer for the target
theme was mounted and the old instance is recorded destroyed. -/
theorem switchTheme_serialized_destroy_before_mount (s : OrchState)
    (B : String) (old : Nat)
    (hne : s.currentTheme ≠ B) (hold : s.activeRenderer = some old) :
    (switchTheme B s).2
      = [Event.destroyRenderer old,
         Event.mountRenderer s.nextRendererId B] ∧
    (switchTheme B s).1.activeRenderer = some s.nextRendererId ∧
    old ∈ (switchTheme B s).1.destroyedRenderers ∧
    switchTheme B (switchTheme B s).1 = ((switchTheme B s).1, []) ∧
    countMountsOf B ((switchTheme B s).2
        ++ (switchTheme B (switchTheme B s).1).2) = 1 := by
  have h1 : switchTheme B s
      = ({ s with activeRenderer := some s.nextRendererId,
                  nextRendererId := s.nextRendererId + 1,
                  currentTheme := B,
                  destroyedRenderers := old :: s.destroyedRenderers },
         [Event.destroyRenderer old,
          Event.mountRenderer s.nextRendererId B]) := by
    simp [switchTheme, hne, hold]
  have h2 : switchTheme B (switchTheme B s).1 = ((switchTheme B s).1, []) := by
    rw [h1]
    simp [switchTheme]
  refine ⟨by rw [h1], by rw [h1], by rw [h1]; exact List.mem_cons_self _ _,
    h2, ?_⟩
  rw [h2, h1]
  simp [countMountsOf]

/-- Witness for C6: from a concrete state on theme `contribution-graph`
with renderer 0 active, two serialized `switchTheme "fireworks"` calls
destroy instance 0, mount exactly one `fireworks` instance, and leave the
second call a no-op. -/
theorem switchTheme_serialized_destroy_before_mount_witness :
    (switchTheme "fireworks"
        { currentTimezone := "UTC", celebratedTimezones := [],
          phase := Phase.counting, currentTheme := "contribution-graph",
          activeRenderer := some 0, destroyedRenderers := [],
          nextRendererId := 1 }).2
      = [Event.destroyRenderer 0, Event.mountRenderer 1 "fireworks"] ∧
    countMountsOf "fireworks"
        ((switchTheme "fireworks"
            { currentTimezone := "UTC", celebratedTimezones := [],
              phase := Phase.counting,
              currentTheme := "contribution-graph",
              activeRenderer := some 0, destroyedRenderers := [],
              nextRendererId := 1 }).2
          ++ (switchTheme "fireworks"
              (switchTheme "fireworks"
                { currentTimezone := "UTC", celebratedTimezones := [],
                  phase := Phase.counting,
                  currentTheme := "contribution-graph",
                  activeRenderer := some 0, destroyedRenderers := [],
                  nextRendererId := 1 }).1).2) = 1 :=
  have h := switchTheme_serialized_destroy_before_mount
    { currentTimezone := "UTC", celebratedTimezones := [],
      phase := Phase.counting, currentTheme := "contribution-graph",
      activeRenderer := some 0, destroyedRenderers := [],
      nextRendererId := 1 } "fireworks" 0 (by decide) rfl
  ⟨h.1, h.2.2.2.2⟩

end Orchestrator

/-! ## Landing page background manager
(`src/components/landing-page/background-manager.ts`)

`createBackgroundManager` is embedded from its source.  `render(theme)` is
an async function with exactly one suspension point (the awaited factory
load), so it is modelled as two atomic segments: `renderBeforeFactory`
(the entry guard, destruction of the previous renderer, the re-check, and
the container mutations) and `renderAfterFactory` (the post-await
re-check, then creating and mounting the new renderer).  A `destroy` call
can interleave between the two segments.  The reduced-motion controller
(`createPageController`, source not present) is modelled as a
subscription flag, and the resource tracker by its entry list as in the
resource-tracking section. -/

namespace BackgroundManager

/-- `BackgroundManagerState` from the source, with renderer instances
identified by numeric ids so identity and leaks are observable. -/
structure BMState where
  renderer : Option Nat
  container : Option Nat
  visibilityHandler : Bool
  resizeHandler : Bool
  trackerEntries : List Nat
  isDestroyed : Bool
  controllerActive : Bool
  destroyedRenderers : List Nat
  nextRendererId : Nat
deriving DecidableEq, Repr

/-- Observable DOM / listener / renderer operations of the manager. -/
inductive BMEvent where
  | destroyRenderer (id : Nat)
  | clearContainer
  | setThemeClass (theme : String)
  | mountRenderer (id : Nat)
  | removeVisibilityListener
  | removeResizeListener
  | cancelTimer (h : Nat)
deriving DecidableEq, Repr

/-- The state created by `createBackgroundManager()`. -/
def createBackgroundManagerState : BMState :=
  { renderer := none, container := none, visibilityHandler := false,
    resizeHandler := false, trackerEntries := [], isDestroyed := false,
    controllerActive := false, destroyedRenderers := [],
    nextRendererId := 0 }

/-- The manager's container-setup method from the source: store the
container, attach
the visibility and resize listeners, start the reduced-motion controller.
It does not reset `isDestroyed`. -/
def initManager (c : Nat) (s : BMState) : BMState :=
  { s with container := some c, visibilityHandler := true,
           resizeHandler := true, controllerActive := true }

/-- First synchronous segment of `render(theme)`, up to the awaited
factory load: the entry guard (`!container || isDestroyed`), the in-flight
re-check, destruction of the previous renderer, the second re-check, and
the container clearing / theme-class mutations. -/
def renderBeforeFactory (theme : String) (s : BMState) :
    BMState × List BMEvent :=
  if s.isDestroyed || s.container.isNone then (s, [])
  else
    let step1 : BMState × List BMEvent :=
      match s.renderer with
      | some r =>
          ({ s with renderer := none,
                    destroyedRenderers := r :: s.destroyedRenderers },
           [BMEvent.destroyRenderer r])
      | none => (s, [])
    if step1.1.isDestroyed || step1.1.container.isNone then step1
    else (step1.1,
      step1.2 ++ [BMEvent.clearContainer, BMEvent.setThemeClass theme])

/-- Second segment of `render(theme)`, resumed after the factory promise
settles: re-check `isDestroyed` / `container`, then create and mount the
new renderer. -/
def renderAfterFactory (s : BMState) : BMState × List BMEvent :=
  if s.isDestroyed || s.container.isNone then (s, [])
  else
    ({ s with renderer := some s.nextRendererId,
              nextRendererId := s.nextRendererId + 1 },
     [BMEvent.mountRenderer s.nextRendererId])

/-- `removeEventListeners` from the source: null-guarded removal of the
two listeners, then `cancelAll` on the resource tracker. -/
def removeEventListeners (s : BMState) : BMState × List BMEvent :=
  let e1 : List BMEvent :=
    if s.visibilityHandler then [BMEvent.removeVisibilityListener] else []
  let e2 : List BMEvent :=
    if s.resizeHandler then [BMEvent.removeResizeListener] else []
  let e3 : List BMEvent := s.trackerEntries.map BMEvent.cancelTimer
  ({ s with visibilityHandler := false, resizeHandler := false,
            trackerEntries := [] },
   e1 ++ e2 ++ e3)

/-- `destroy()` from the source: mark destroyed, destroy the renderer if
present, stop the reduced-motion controller, remove listeners and cancel
tracked timers, clear the container reference. -/
def destroy (s : BMState) : BMState × List BMEvent :=
  let s1 := { s with isDestroyed := true }
  let step1 : BMState × List BMEvent :=
    match s1.renderer with
    | some r =>
        ({ s1 with renderer := none,
                   destroyedRenderers := r :: s1.destroyedRenderers },
         [BMEvent.destroyRenderer r])
    | none => (s1, [])
  let s2 := { step1.1 with controllerActive := false }
  let rl := removeEventListeners s2
  ({ rl.1 with container := none }, step1.2 ++ rl.2)

/-- `getRenderer()` from the source. -/
def getRenderer (s : BMState) : Option Nat := s.renderer

/-- C10: once `destroy()` has run, the destroyed state is terminal: every
subsequent `render` segment — including the post-await segment of a render
already in flight when `destroy` ran, and renders after a re-`initManager`
— completes without mounting a renderer, without mutating the container
and without any other effect; `getRenderer` returns `none`; and `destroy`
is idempotent, so calling it any number of further times changes nothing
and performs no work. -/
theorem destroy_terminal (s : BMState) (theme : String) (c : Nat) :
    (destroy s).1.isDestroyed = true ∧
    getRenderer (destroy s).1 = none ∧
    renderBeforeFactory theme (destroy s).1 = ((destroy s).1, []) ∧
    renderAfterFactory (destroy s).1 = ((destroy s).1, []) ∧
    renderBeforeFactory theme (initManager c (destroy s).1)
      = (initManager c (destroy s).1, []) ∧
    renderAfterFactory (initManager c (destroy s).1)
      = (initManager c (destroy s).1, []) ∧
    destroy (destroy s).1 = ((destroy s).1, []) := by
  refine ⟨?_, ?_, ?_, ?_, ?_, ?_, ?_⟩ <;>
    cases hr : s.renderer <;>
      simp [destroy, hr, removeEventListeners, renderBeforeFactory,
        renderAfterFactory, getRenderer, initManager]

end BackgroundManager

end Timestamp
